import Mathlib

/-!
Shallow embedding of the change-tracking ingestion pipeline of
`davidhmays/scraper_simple` (Rust), covering:

* `src/domain/property.rs` — `ScrapedProperty`, `TrackedProperty`,
  `PropertyChange`, `TrackedProperty::diff`,
  `ScrapedProperty::from_scraper_property`;
* `src/domain/logic.rs` — `derive_canonical_status`;
* `src/scraper/models.rs` — the raw scraper payload model;
* `src/db/properties.rs` — the transactional persister
  (`save_scraped_properties`, `process_one_property` and the SQL helpers)
  and the read queries (`get_change_events_for_export`,
  `get_recent_changes`).

Modelling conventions:

* Rust `NaiveDateTime` timestamps are modelled as `Int` ticks (one tick =
  one day); their Rust `Display` serialization is modelled as the decimal
  rendering of the tick.  Nothing in the verified properties depends on
  calendar structure beyond "later than" and a day difference, except the
  report query's year extraction, which is modelled as division by 365.
* `i64` values are modelled as `Int` (no arithmetic in the pipeline can
  overflow semantics that the claims depend on).
* The RFC 3339 date parser used by normalization is an external library
  function; it is passed in as an explicit parameter
  `pd : String → Option Int`.
* The SQLite connection is modelled as a `Tables` value (the three tables
  plus the rowid counter) threaded explicitly; every SQL statement runs
  through `dbstep`, which consults a failure oracle held in `Env` so that
  storage errors at any statement can be injected.  `Utc::now()` is
  modelled by `utc_now`, a monotone clock held in `Env`.
-/

/-- Rust `NaiveDateTime`, modelled as integer ticks (days). -/
abbrev RTime := Int

/-- Rust `Display`/`to_string` for the types stored in tracked fields:
`String` renders as itself, `i64` as decimal, `bool` as `true`/`false`,
`NaiveDateTime` as the decimal tick (see module header). -/
class RustShow (α : Type) where
  rshow : α → String

instance : RustShow String := ⟨id⟩

instance : RustShow Int := ⟨fun n => toString n⟩

instance : RustShow Bool := ⟨fun b => if b then "true" else "false"⟩

export RustShow (rshow)

/-- `src/domain/property.rs` — `ScrapedProperty`: the flattened, validated
domain record built from one raw scrape payload. -/
structure ScrapedProperty where
  source_name : String
  source_listing_id : String
  address_line : String
  city : String
  postal_code : String
  state_abbr : Option String
  county_name : Option String
  status : Option String
  list_price : Option Int
  sold_price : Option Int
  sold_date : Option RTime
  is_pending : Option Bool
  is_contingent : Option Bool
  is_new_listing : Option Bool
  is_foreclosure : Option Bool
  is_price_reduced : Option Bool
  is_coming_soon : Option Bool
deriving DecidableEq, Repr

/-- `src/domain/property.rs` — `TrackedProperty`: the current state of a
property as stored in the `properties` table. -/
structure TrackedProperty where
  id : Int
  status : Option String
  list_price : Option Int
  sold_price : Option Int
  sold_date : Option RTime
  is_pending : Option Bool
  is_contingent : Option Bool
  is_new_listing : Option Bool
  is_foreclosure : Option Bool
  is_price_reduced : Option Bool
  is_coming_soon : Option Bool
deriving DecidableEq, Repr

/-- `src/domain/property.rs` — `PropertyChange`: one change to a tracked
field, destined for `property_history`. -/
structure PropertyChange where
  property_id : Int
  field_name : String
  previous_value : Option String
  current_value : String
deriving DecidableEq, Repr

/-- `src/domain/property.rs` — the `compare_and_log!` macro body inside
`TrackedProperty::diff`: if the old and new option differ, emit one
`PropertyChange` whose previous value is the old value serialized (null
preserved) and whose current value is the new value serialized, with an
absent new value rendering as the empty string (`unwrap_or_default`). -/
def compare_and_log {α : Type} [DecidableEq α] [RustShow α]
    (pid : Int) (fname : String) (oldv newv : Option α) : List PropertyChange :=
  if oldv ≠ newv then
    [⟨pid, fname, oldv.map rshow, (newv.map rshow).getD ""⟩]
  else []

/-- `src/domain/property.rs` — `TrackedProperty::diff`: compare the tracked
state with a newly scraped record, field by field in the fixed source
order. -/
def TrackedProperty.diff (self : TrackedProperty) (new : ScrapedProperty) :
    List PropertyChange :=
  compare_and_log self.id "status" self.status new.status ++
  compare_and_log self.id "list_price" self.list_price new.list_price ++
  compare_and_log self.id "sold_price" self.sold_price new.sold_price ++
  compare_and_log self.id "sold_date" self.sold_date new.sold_date ++
  compare_and_log self.id "is_pending" self.is_pending new.is_pending ++
  compare_and_log self.id "is_contingent" self.is_contingent new.is_contingent ++
  compare_and_log self.id "is_new_listing" self.is_new_listing new.is_new_listing ++
  compare_and_log self.id "is_foreclosure" self.is_foreclosure new.is_foreclosure ++
  compare_and_log self.id "is_price_reduced" self.is_price_reduced new.is_price_reduced ++
  compare_and_log self.id "is_coming_soon" self.is_coming_soon new.is_coming_soon

namespace Scraper

/-- `src/scraper/models.rs` — `Source`. -/
structure Source where
  name : Option String
  id : Option String
  listing_id : Option String
deriving Repr

/-- `src/scraper/models.rs` — `Address`. -/
structure Address where
  line : Option String
  city : Option String
  state_code : Option String
  postal_code : Option String
  country : Option String
deriving Repr

/-- `src/scraper/models.rs` — `County`. -/
structure County where
  name : Option String
  fips_code : Option Int
deriving Repr

/-- `src/scraper/models.rs` — `Coordinate` (unused by normalization; floats
carried opaquely). -/
structure Coordinate where
  lat : Option Float
  lon : Option Float
deriving Repr

/-- `src/scraper/models.rs` — `Location`. -/
structure Location where
  address : Option Address
  county : Option County
  coordinate : Option Coordinate
deriving Repr

/-- `src/scraper/models.rs` — `Description`.  The struct in `models.rs` of
this snapshot lists `beds`, `baths`, `lot_sqft` and `type`; the normalizer
in `src/domain/property.rs` additionally reads `description.sold_date` as an
optional string, so that field is included here as the accessing code
requires. -/
structure Description where
  beds : Option Int
  baths : Option Int
  lot_sqft : Option Int
  property_type : Option String
  sold_date : Option String
deriving Repr

/-- `src/scraper/models.rs` — `Flags`. -/
structure Flags where
  is_coming_soon : Option Bool
  is_contingent : Option Bool
  is_foreclosure : Option Bool
  is_new_construction : Option Bool
  is_new_listing : Option Bool
  is_pending : Option Bool
  is_price_reduced : Option Bool
deriving Repr

/-- `src/scraper/models.rs` — `Property`: one raw scraped payload. -/
structure Property where
  source : Source
  location : Location
  description : Option Description
  status : Option String
  list_price : Option Int
  price_reduced : Option Int
  sold_price : Option Int
  flags : Option Flags
  currency : Option String
deriving Repr

end Scraper

/-- The `as_deref().filter(|s| !s.is_empty()).ok_or(msg)` pattern of
`ScrapedProperty::from_scraper_property`: a required string that must be
present and non-empty. -/
def req (o : Option String) (msg : String) : Except String String :=
  match o with
  | some s => if s.isEmpty then Except.error msg else Except.ok s
  | none => Except.error msg

/-- A raw optional string field is present and non-empty. -/
def present_nonempty (o : Option String) : Bool :=
  match o with
  | some s => !s.isEmpty
  | none => false

/-- `src/domain/property.rs` — `ScrapedProperty::from_scraper_property`:
validate and flatten one raw payload.  `pd` is the external RFC 3339 date
parser (`DateTime::parse_from_rfc3339(s).ok()` followed by the conversion
to naive UTC), passed in as a parameter. -/
def ScrapedProperty.from_scraper_property (pd : String → Option RTime)
    (p : Scraper.Property) : Except String ScrapedProperty :=
  match p.location.address with
  | none => Except.error "Missing address object"
  | some address =>
    match req address.line "Missing or empty address line" with
    | Except.error m => Except.error m
    | Except.ok address_line =>
      match req address.city "Missing or empty city" with
      | Except.error m => Except.error m
      | Except.ok city =>
        match req address.postal_code "Missing or empty postal code" with
        | Except.error m => Except.error m
        | Except.ok postal_code =>
          match req p.source.listing_id "Missing or empty source listing id" with
          | Except.error m => Except.error m
          | Except.ok source_listing_id =>
            Except.ok
              { source_name := p.source.name.getD "unknown"
                source_listing_id := source_listing_id
                address_line := address_line
                city := city
                postal_code := postal_code
                state_abbr := address.state_code
                county_name := p.location.county.bind (fun c => c.name)
                status := p.status
                list_price := p.list_price
                sold_price := p.sold_price
                sold_date := (p.description.bind (fun d => d.sold_date)).bind pd
                is_pending := p.flags.bind (fun f => f.is_pending)
                is_contingent := p.flags.bind (fun f => f.is_contingent)
                is_new_listing := p.flags.bind (fun f => f.is_new_listing)
                is_foreclosure := p.flags.bind (fun f => f.is_foreclosure)
                is_price_reduced := p.flags.bind (fun f => f.is_price_reduced)
                is_coming_soon := p.flags.bind (fun f => f.is_coming_soon) }

/-- `src/domain/logic.rs` — `derive_canonical_status`: the lifecycle label
derived from flags and raw status by fixed precedence. -/
def derive_canonical_status (sold_date : Option RTime)
    (is_pending is_contingent is_coming_soon : Bool)
    (raw_status : Option String) : String :=
  if sold_date.isSome then "Sold"
  else if is_pending then "Pending"
  else if is_contingent then "Contingent"
  else if is_coming_soon then "Coming Soon"
  else
    match raw_status with
    | some s =>
        if s = "for_sale" ∨ s = "ready_to_build" ∨ s = "for_rent" then "Active"
        else "Other"
    | none => "Other"

/-! ## Storage model (`src/db/properties.rs`) -/

/-- One row of the `properties` table. -/
structure PropertyRow where
  id : Int
  address_line : String
  city : String
  postal_code : String
  state_abbr : Option String
  county_name : Option String
  status : Option String
  list_price : Option Int
  sold_price : Option Int
  sold_date : Option RTime
  is_pending : Option Bool
  is_contingent : Option Bool
  is_new_listing : Option Bool
  is_foreclosure : Option Bool
  is_price_reduced : Option Bool
  is_coming_soon : Option Bool
  first_seen_at : RTime
  last_seen_at : RTime
deriving DecidableEq, Repr

/-- One row of the append-only `property_history` table. -/
structure HistoryRow where
  property_id : Int
  observed_at : RTime
  field_name : String
  previous_value : Option String
  current_value : String
deriving DecidableEq, Repr

/-- One row of the `property_sources` table. -/
structure SourceRow where
  property_id : Int
  source_name : String
  source_listing_id : String
  first_seen_at : RTime
  last_seen_at : RTime
deriving DecidableEq, Repr

/-- The SQLite database contents relevant to the pipeline: the three tables
plus the rowid counter that `last_insert_rowid` reports from. -/
structure Tables where
  properties : List PropertyRow
  property_history : List HistoryRow
  property_sources : List SourceRow
  next_id : Int
deriving DecidableEq, Repr

/-- Ambient execution environment: a failure oracle deciding which SQL
statement (counted globally by `opctr`) fails with a storage error, and the
monotone wall clock behind `Utc::now()`. -/
structure Env where
  oracle : Nat → Bool
  opctr : Nat
  clock : RTime

/-- The oracle never injects a storage failure. -/
def Env.NoFail (e : Env) : Prop := ∀ n, e.oracle n = false

/-- `Utc::now()`: read the clock and advance it. -/
def utc_now (e : Env) : RTime × Env :=
  (e.clock, { e with clock := e.clock + 1 })

/-- Run one SQL statement: consult the failure oracle, then apply the
statement's effect `f` to the tables. -/
def dbstep {α : Type} (e : Env) (t : Tables) (f : Tables → α × Tables) :
    Except String α × Env × Tables :=
  if e.oracle e.opctr then
    (Except.error "storage error", { e with opctr := e.opctr + 1 }, t)
  else
    let r := f t
    (Except.ok r.1, { e with opctr := e.opctr + 1 }, r.2)

/-- The `WHERE address_line = ?1 AND city = ?2 AND postal_code = ?3` match
used by `find_property_by_address`. -/
def addr_matches (sp : ScrapedProperty) (r : PropertyRow) : Bool :=
  r.address_line == sp.address_line && r.city == sp.city &&
    r.postal_code == sp.postal_code

/-- Project a `properties` row to the `TrackedProperty` columns selected by
`find_property_by_address`. -/
def PropertyRow.toTracked (r : PropertyRow) : TrackedProperty :=
  ⟨r.id, r.status, r.list_price, r.sold_price, r.sold_date, r.is_pending,
    r.is_contingent, r.is_new_listing, r.is_foreclosure, r.is_price_reduced,
    r.is_coming_soon⟩

/-- `src/db/properties.rs` — `find_property_by_address`: point lookup by the
(address line, city, postal code) natural key. -/
def find_property_by_address (e : Env) (t : Tables) (sp : ScrapedProperty) :
    Except String (Option TrackedProperty) × Env × Tables :=
  dbstep e t (fun t =>
    ((t.properties.find? (addr_matches sp)).map PropertyRow.toTracked, t))

/-- The fresh `properties` row written by `insert_property`. -/
def new_property_row (idv : Int) (sp : ScrapedProperty) (now : RTime) :
    PropertyRow :=
  ⟨idv, sp.address_line, sp.city, sp.postal_code, sp.state_abbr,
    sp.county_name, sp.status, sp.list_price, sp.sold_price, sp.sold_date,
    sp.is_pending, sp.is_contingent, sp.is_new_listing, sp.is_foreclosure,
    sp.is_price_reduced, sp.is_coming_soon, now, now⟩

/-- `src/db/properties.rs` — `insert_property`: insert a fresh row into
`properties` and return its rowid. -/
def insert_property (e : Env) (t : Tables) (sp : ScrapedProperty)
    (now : RTime) : Except String Int × Env × Tables :=
  dbstep e t (fun t =>
    (t.next_id,
      { t with
        properties := t.properties ++ [new_property_row t.next_id sp now]
        next_id := t.next_id + 1 }))

/-- `src/db/properties.rs` — `update_property`: overwrite the ten tracked
fields and `last_seen_at` of the row with the given id. -/
def update_property (e : Env) (t : Tables) (pid : Int) (sp : ScrapedProperty)
    (now : RTime) : Except String Unit × Env × Tables :=
  dbstep e t (fun t =>
    ((),
      { t with
        properties := t.properties.map (fun r =>
          if r.id == pid then
            { r with
              status := sp.status, list_price := sp.list_price,
              sold_price := sp.sold_price, sold_date := sp.sold_date,
              is_pending := sp.is_pending, is_contingent := sp.is_contingent,
              is_new_listing := sp.is_new_listing,
              is_foreclosure := sp.is_foreclosure,
              is_price_reduced := sp.is_price_reduced,
              is_coming_soon := sp.is_coming_soon, last_seen_at := now }
          else r) }))

/-- Execute one `INSERT INTO property_history` statement per row, stopping
at the first storage failure (each `stmt.execute` in the source is a
separate fallible statement). -/
def insert_history_rows :
    Env → Tables → List HistoryRow → Except String Unit × Env × Tables
  | e, t, [] => (Except.ok (), e, t)
  | e, t, row :: rest =>
    match dbstep e t (fun t =>
        ((), { t with property_history := t.property_history ++ [row] })) with
    | (Except.ok _, e2, t2) => insert_history_rows e2 t2 rest
    | (Except.error m, e2, t2) => (Except.error m, e2, t2)

/-- `src/db/properties.rs` — `log_changes`: append one history row per
`PropertyChange`, all stamped with a fresh `Utc::now()` taken inside the
function. -/
def log_changes (e : Env) (t : Tables) (changes : List PropertyChange) :
    Except String Unit × Env × Tables :=
  let (now, e1) := utc_now e
  insert_history_rows e1 t (changes.map (fun c =>
    ⟨c.property_id, now, c.field_name, c.previous_value, c.current_value⟩))

/-- The `log_field!` macro body of `log_initial_state`: for a present field,
one history row with NULL previous value and the serialized value. -/
def opt_initial_entry {α : Type} [RustShow α] (pid : Int) (now : RTime)
    (fname : String) (o : Option α) : List HistoryRow :=
  match o with
  | some v => [⟨pid, now, fname, none, rshow v⟩]
  | none => []

/-- The history rows written by `log_initial_state`, in the fixed source
order, one per present tracked field. -/
def initial_history_entries (pid : Int) (now : RTime)
    (sp : ScrapedProperty) : List HistoryRow :=
  opt_initial_entry pid now "status" sp.status ++
  opt_initial_entry pid now "list_price" sp.list_price ++
  opt_initial_entry pid now "sold_price" sp.sold_price ++
  opt_initial_entry pid now "sold_date" sp.sold_date ++
  opt_initial_entry pid now "is_pending" sp.is_pending ++
  opt_initial_entry pid now "is_contingent" sp.is_contingent ++
  opt_initial_entry pid now "is_new_listing" sp.is_new_listing ++
  opt_initial_entry pid now "is_foreclosure" sp.is_foreclosure ++
  opt_initial_entry pid now "is_price_reduced" sp.is_price_reduced ++
  opt_initial_entry pid now "is_coming_soon" sp.is_coming_soon

/-- `src/db/properties.rs` — `log_initial_state`: for a newly discovered
property, log every present tracked field with NULL previous value. -/
def log_initial_state (e : Env) (t : Tables) (pid : Int)
    (sp : ScrapedProperty) (now : RTime) :
    Except String Unit × Env × Tables :=
  insert_history_rows e t (initial_history_entries pid now sp)

/-- The `(source_name, source_listing_id)` unique-key match on
`property_sources`. -/
def source_key_matches (sp : ScrapedProperty) (r : SourceRow) : Bool :=
  r.source_name == sp.source_name &&
    r.source_listing_id == sp.source_listing_id

/-- `src/db/properties.rs` — `insert_or_update_source`: upsert the source
link; `ON CONFLICT(source_name, source_listing_id)` re-points
`property_id` and refreshes `last_seen_at` (last writer wins). -/
def insert_or_update_source (e : Env) (t : Tables) (pid : Int)
    (sp : ScrapedProperty) (now : RTime) :
    Except String Unit × Env × Tables :=
  dbstep e t (fun t =>
    ((),
      { t with
        property_sources :=
          if t.property_sources.any (source_key_matches sp) then
            t.property_sources.map (fun r =>
              if source_key_matches sp r then
                { r with property_id := pid, last_seen_at := now }
              else r)
          else
            t.property_sources ++
              [⟨pid, sp.source_name, sp.source_listing_id, now, now⟩] }))

/-- `src/db/properties.rs` — `update_source`: refresh `last_seen_at` of the
source row with the given key (leaves `property_id` untouched). -/
def update_source (e : Env) (t : Tables) (sp : ScrapedProperty)
    (now : RTime) : Except String Unit × Env × Tables :=
  dbstep e t (fun t =>
    ((),
      { t with
        property_sources := t.property_sources.map (fun r =>
          if source_key_matches sp r then { r with last_seen_at := now }
          else r) }))

/-- `src/db/properties.rs` — `process_one_property`: resolve identity, then
take the EXISTING path (diff; if non-empty, log changes and update the row;
always refresh the source's last-seen) or the NEW path (insert, log initial
state, upsert the source link). -/
def process_one_property (e : Env) (t : Tables) (sp : ScrapedProperty) :
    Except String Unit × Env × Tables :=
  let (now, e1) := utc_now e
  match find_property_by_address e1 t sp with
  | (Except.error m, e2, t2) => (Except.error m, e2, t2)
  | (Except.ok (some tracked), e2, t2) =>
    let changes := tracked.diff sp
    if changes.isEmpty then
      update_source e2 t2 sp now
    else
      match log_changes e2 t2 changes with
      | (Except.error m, e3, t3) => (Except.error m, e3, t3)
      | (Except.ok _, e3, t3) =>
        match update_property e3 t3 tracked.id sp now with
        | (Except.error m, e4, t4) => (Except.error m, e4, t4)
        | (Except.ok _, e4, t4) => update_source e4 t4 sp now
  | (Except.ok none, e2, t2) =>
    match insert_property e2 t2 sp now with
    | (Except.error m, e3, t3) => (Except.error m, e3, t3)
    | (Except.ok pid, e3, t3) =>
      match log_initial_state e3 t3 pid sp now with
      | (Except.error m, e4, t4) => (Except.error m, e4, t4)
      | (Except.ok _, e4, t4) => insert_or_update_source e4 t4 pid sp now

/-- The per-record loop inside the transaction of
`save_scraped_properties`. -/
def run_batch :
    Env → Tables → List ScrapedProperty → Except String Unit × Env × Tables
  | e, t, [] => (Except.ok (), e, t)
  | e, t, sp :: rest =>
    match process_one_property e t sp with
    | (Except.ok _, e2, t2) => run_batch e2 t2 rest
    | (Except.error m, e2, t2) => (Except.error m, e2, t2)

/-- `tx.commit()`: itself a fallible storage operation. -/
def commit_tx (e : Env) (t : Tables) : Except String Unit × Env × Tables :=
  dbstep e t (fun t => ((), t))

/-- `src/db/properties.rs` — `save_scraped_properties`: validate and flatten
the raw payloads (skipping records that fail validation), then process the
whole batch inside one transaction; any storage error aborts and rolls the
transaction back to the pre-batch tables. -/
def save_scraped_properties (pd : String → Option RTime) (e : Env)
    (t : Tables) (raws : List Scraper.Property) :
    Except String Unit × Env × Tables :=
  match run_batch e t (raws.filterMap (fun p =>
      (ScrapedProperty.from_scraper_property pd p).toOption)) with
  | (Except.ok _, e2, t2) =>
    match commit_tx e2 t2 with
    | (Except.ok _, e3, t3) => (Except.ok (), e3, t3)
    | (Except.error m, e3, _) => (Except.error m, e3, t)
  | (Except.error m, e2, _) => (Except.error m, e2, t)

/-! ## Read queries (`src/db/properties.rs`) -/

/-- `src/domain/changes.rs` — `ChangeViewModel`: one reportable change
event row. -/
structure ChangeViewModel where
  change_date : RTime
  change_type : String
  previous_value : String
  current_value : String
  address_full : String
  address_line : String
  city : String
  county_name : Option String
  state_abbr : Option String
  postal_code : String
  price : Option Int
  canonical_status : String
  is_ready_to_build : Bool
  is_new_listing : Bool
  is_price_reduced : Bool
  is_foreclosure : Bool
  price_reduction : Option Int
deriving DecidableEq, Repr

/-- `strftime('%Y', observed_at)` compared against the year parameter; with
day-tick timestamps the year is the tick divided by 365. -/
def yearOf (tt : RTime) : Int := tt / 365

/-- The `WHERE` clause of `get_change_events_for_export`: state match, year
match, and field name restricted to `status` or `list_price`. -/
def export_row_filter (state : String) (year : Int) (h : HistoryRow)
    (p : PropertyRow) : Bool :=
  p.state_abbr == some state && yearOf h.observed_at == year &&
    (h.field_name == "status" || h.field_name == "list_price")

/-- Insert into a list kept in descending key order (`ORDER BY _ DESC`). -/
def insertDescBy {α : Type} (key : α → Int) (a : α) :
    List α → List α
  | [] => [a]
  | b :: rest =>
    if key b ≤ key a then a :: b :: rest else b :: insertDescBy key a rest

/-- Sort descending by an integer key (`ORDER BY _ DESC`). -/
def sortDescBy {α : Type} (key : α → Int) : List α → List α
  | [] => []
  | a :: rest => insertDescBy key a (sortDescBy key rest)

/-- The `query_map` row closure of `get_change_events_for_export`: build one
`ChangeViewModel` from a history row joined with its property row. -/
def change_view_of (h : HistoryRow) (p : PropertyRow) : ChangeViewModel :=
  let current_status := derive_canonical_status p.sold_date
    (p.is_pending.getD false) (p.is_contingent.getD false)
    (p.is_coming_soon.getD false) p.status
  let triple :=
    if h.field_name == "status" then
      ("Status Change",
        derive_canonical_status p.sold_date false false false
          h.previous_value,
        current_status)
    else
      ("Price Change", h.previous_value.getD "", h.current_value)
  let price_reduction :=
    if triple.1 == "Price Change" then
      match triple.2.1.toInt?, triple.2.2.toInt? with
      | some pv, some cv => some (pv - cv)
      | _, _ => none
    else none
  { change_date := h.observed_at
    change_type := triple.1
    previous_value := triple.2.1
    current_value := triple.2.2
    address_full := p.address_line ++ ", " ++ p.city ++ ", " ++
      p.state_abbr.getD "" ++ " " ++ p.postal_code
    address_line := p.address_line
    city := p.city
    county_name := p.county_name
    state_abbr := p.state_abbr
    postal_code := p.postal_code
    price := p.list_price
    canonical_status := current_status
    is_ready_to_build := p.status == some "ready_to_build"
    is_new_listing := p.is_new_listing.getD false
    is_price_reduced := p.is_price_reduced.getD false
    is_foreclosure := p.is_foreclosure.getD false
    price_reduction := price_reduction }

/-- `src/db/properties.rs` — `get_change_events_for_export`: join history
with properties, filter by state, year and reportable field name, order
newest first, and build the view models. -/
def get_change_events_for_export (t : Tables) (state : String)
    (year : Int) : List ChangeViewModel :=
  let joined := t.property_history.filterMap (fun h =>
    (t.properties.find? (fun p => p.id == h.property_id)).map
      (fun p => (h, p)))
  let filtered := joined.filter (fun hp =>
    export_row_filter state year hp.1 hp.2)
  (sortDescBy (fun hp => hp.1.observed_at) filtered).map
    (fun hp => change_view_of hp.1 hp.2)

/-- `src/db/properties.rs` — `get_recent_changes`: reuse the export query
for the current year and hardcoded state `"UT"`, then filter to changes at
most `days` old.  (`now` is the wall-clock value the function reads from
`Utc::now()`.) -/
def get_recent_changes (t : Tables) (now : RTime) (days : Int) :
    List ChangeViewModel :=
  let year := yearOf now
  let all_changes := get_change_events_for_export t "UT" year
  all_changes.filter (fun c => decide (now - c.change_date ≤ days))

/-! ## Diff shape and order (claim C4) -/

/-- The fixed field order of the diff and the initial-state logger. -/
def tracked_field_names : List String :=
  ["status", "list_price", "sold_price", "sold_date", "is_pending",
    "is_contingent", "is_new_listing", "is_foreclosure", "is_price_reduced",
    "is_coming_soon"]

/-- Modelled from the spec (§4.3): the changes the Diff Engine must emit
for one named tracked field — exactly one `PropertyChange` when the two
values differ by structural option equality (absent differs from
present-with-any-value, two absent values are equal), none otherwise; the
previous value is the serialized old value preserving null-ness and the
current value is the serialized new value, empty string when absent. -/
def spec_changes_for (tr : TrackedProperty) (sp : ScrapedProperty) :
    String → List PropertyChange
  | "status" =>
    if tr.status ≠ sp.status then
      [⟨tr.id, "status", tr.status.map rshow, (sp.status.map rshow).getD ""⟩]
    else []
  | "list_price" =>
    if tr.list_price ≠ sp.list_price then
      [⟨tr.id, "list_price", tr.list_price.map rshow,
        (sp.list_price.map rshow).getD ""⟩]
    else []
  | "sold_price" =>
    if tr.sold_price ≠ sp.sold_price then
      [⟨tr.id, "sold_price", tr.sold_price.map rshow,
        (sp.sold_price.map rshow).getD ""⟩]
    else []
  | "sold_date" =>
    if tr.sold_date ≠ sp.sold_date then
      [⟨tr.id, "sold_date", tr.sold_date.map rshow,
        (sp.sold_date.map rshow).getD ""⟩]
    else []
  | "is_pending" =>
    if tr.is_pending ≠ sp.is_pending then
      [⟨tr.id, "is_pending", tr.is_pending.map rshow,
        (sp.is_pending.map rshow).getD ""⟩]
    else []
  | "is_contingent" =>
    if tr.is_contingent ≠ sp.is_contingent then
      [⟨tr.id, "is_contingent", tr.is_contingent.map rshow,
        (sp.is_contingent.map rshow).getD ""⟩]
    else []
  | "is_new_listing" =>
    if tr.is_new_listing ≠ sp.is_new_listing then
      [⟨tr.id, "is_new_listing", tr.is_new_listing.map rshow,
        (sp.is_new_listing.map rshow).getD ""⟩]
    else []
  | "is_foreclosure" =>
    if tr.is_foreclosure ≠ sp.is_foreclosure then
      [⟨tr.id, "is_foreclosure", tr.is_foreclosure.map rshow,
        (sp.is_foreclosure.map rshow).getD ""⟩]
    else []
  | "is_price_reduced" =>
    if tr.is_price_reduced ≠ sp.is_price_reduced then
      [⟨tr.id, "is_price_reduced", tr.is_price_reduced.map rshow,
        (sp.is_price_reduced.map rshow).getD ""⟩]
    else []
  | "is_coming_soon" =>
    if tr.is_coming_soon ≠ sp.is_coming_soon then
      [⟨tr.id, "is_coming_soon", tr.is_coming_soon.map rshow,
        (sp.is_coming_soon.map rshow).getD ""⟩]
    else []
  | _ => []

/-! ## Absence vs. false in the diff (claim C5) -/

/-- The six boolean tracked fields, with their accessors on both sides. -/
def bool_tracked_fields :
    List (String × (TrackedProperty → Option Bool) ×
      (ScrapedProperty → Option Bool)) :=
  [("is_pending", fun tr => tr.is_pending, fun sp => sp.is_pending),
    ("is_contingent", fun tr => tr.is_contingent, fun sp => sp.is_contingent),
    ("is_new_listing", fun tr => tr.is_new_listing,
      fun sp => sp.is_new_listing),
    ("is_foreclosure", fun tr => tr.is_foreclosure,
      fun sp => sp.is_foreclosure),
    ("is_price_reduced", fun tr => tr.is_price_reduced,
      fun sp => sp.is_price_reduced),
    ("is_coming_soon", fun tr => tr.is_coming_soon,
      fun sp => sp.is_coming_soon)]

/-- The named tracked field is absent on the tracked side. -/
def tracked_field_is_none (tr : TrackedProperty) : String → Bool
  | "status" => tr.status.isNone
  | "list_price" => tr.list_price.isNone
  | "sold_price" => tr.sold_price.isNone
  | "sold_date" => tr.sold_date.isNone
  | "is_pending" => tr.is_pending.isNone
  | "is_contingent" => tr.is_contingent.isNone
  | "is_new_listing" => tr.is_new_listing.isNone
  | "is_foreclosure" => tr.is_foreclosure.isNone
  | "is_price_reduced" => tr.is_price_reduced.isNone
  | "is_coming_soon" => tr.is_coming_soon.isNone
  | _ => false

/-- Tracked side of the C5 witness: `is_pending` is `Some(false)`. -/
def trFalseAbsent : TrackedProperty :=
  ⟨1, some "for_sale", some 500000, none, none, some false, none, none,
    none, none, none⟩

/-- Scraped side of the C5 witness: `is_pending` is absent. -/
def spFalseAbsent : ScrapedProperty :=
  ⟨"realtor", "L1", "123 Main", "Anytown", "12345", none, none,
    some "for_sale", some 500000, none, none, none, none, none, none, none,
    none⟩

/-! ## Normalization validation (claims C8, C10) -/

/-- The address line buried in the raw payload. -/
def raw_address_line (p : Scraper.Property) : Option String :=
  p.location.address.bind (fun a => a.line)

/-- The city buried in the raw payload. -/
def raw_city (p : Scraper.Property) : Option String :=
  p.location.address.bind (fun a => a.city)

/-- The postal code buried in the raw payload. -/
def raw_postal_code (p : Scraper.Property) : Option String :=
  p.location.address.bind (fun a => a.postal_code)

/-- Failure oracle for the C1 witness: the eighth and later SQL statements
fail, which lands inside the third record of the batch. -/
def failing_oracle : Nat → Bool := fun n => decide (7 ≤ n)

/-- Pre-batch tables for the C1 witness: one committed property with one
history row and one source row. -/
def committed_tables : Tables :=
  ⟨[⟨7, "9 Pre St", "Orem", "84000", some "UT", none, some "for_sale",
      some 100000, none, none, none, none, none, none, none, none, 0, 0⟩],
    [⟨7, 0, "status", none, "for_sale"⟩],
    [⟨7, "realtor", "PRE", 0, 0⟩], 8⟩

/-- One raw batch record for the C1 witness. -/
def batch_record (line lid : String) : Scraper.Property :=
  ⟨⟨some "realtor", none, some lid⟩,
    ⟨some ⟨some line, some "Provo", some "UT", some "84601", none⟩, none,
      none⟩, none, none, none, none, none, none, none⟩

/-- The five-record batch for the C1 witness. -/
def failing_batch : List Scraper.Property :=
  [batch_record "1 A St" "L1", batch_record "2 B St" "L2",
    batch_record "3 C St" "L3", batch_record "4 D St" "L4",
    batch_record "5 E St" "L5"]

/-- Environment for the C3 witness. -/
def idem_env : Env := ⟨fun _ => false, 0, 50⟩

/-- Tables for the C3 witness: one tracked property. -/
def idem_tables : Tables :=
  ⟨[⟨3, "12 Cherry Ln", "Provo", "84601", some "UT", none, some "for_sale",
      some 450000, none, none, some false, none, some true, none, none,
      none, 10, 20⟩], [], [⟨3, "realtor", "R12", 10, 20⟩], 4⟩

/-- Re-scraped record for the C3 witness: tracked fields identical to the
stored row. -/
def idem_scraped : ScrapedProperty :=
  ⟨"realtor", "R12", "12 Cherry Ln", "Provo", "84601", some "UT", none,
    some "for_sale", some 450000, none, none, some false, none, some true,
    none, none, none⟩

/-- Tracked view of the stored row for the C3 witness. -/
def idem_tracked : TrackedProperty :=
  ⟨3, some "for_sale", some 450000, none, none, some false, none,
    some true, none, none, none⟩

/-! ## New-property seeding (claim C6) -/

/-- Number of present tracked fields of a scraped record. -/
def present_tracked_count (sp : ScrapedProperty) : Nat :=
  (if sp.status.isSome then 1 else 0) +
  (if sp.list_price.isSome then 1 else 0) +
  (if sp.sold_price.isSome then 1 else 0) +
  (if sp.sold_date.isSome then 1 else 0) +
  (if sp.is_pending.isSome then 1 else 0) +
  (if sp.is_contingent.isSome then 1 else 0) +
  (if sp.is_new_listing.isSome then 1 else 0) +
  (if sp.is_foreclosure.isSome then 1 else 0) +
  (if sp.is_price_reduced.isSome then 1 else 0) +
  (if sp.is_coming_soon.isSome then 1 else 0)

/-- Environment for the C6 witness. -/
def seed_env : Env := ⟨fun _ => false, 0, 7⟩

/-- Pre-existing tables for the C6 witness: no property matches the new
address. -/
def seed_tables : Tables :=
  ⟨[⟨1, "old", "old", "old", none, none, none, none, none, none, none,
      none, none, none, none, none, 0, 0⟩], [], [], 2⟩

/-- The C6 witness record: 4 of the 10 tracked fields are present. -/
def seed_scraped : ScrapedProperty :=
  ⟨"realtor", "S4", "44 New Rd", "Lehi", "84043", some "UT", none,
    some "for_sale", some 350000, none, none, some true, none, some true,
    none, none, none⟩

/-- Environment for the C7 scenario. -/
def relink_env : Env := ⟨fun _ => false, 0, 100⟩

/-- Initial tables for the C7 scenario: one committed tracked property
(id 7) at address "5 B St", no source rows. -/
def relink_tables : Tables :=
  ⟨[⟨7, "5 B St", "Provo", "84601", some "UT", none, none, none, none,
      none, none, none, none, none, none, none, 0, 0⟩], [], [], 8⟩

/-- First payload of the C7 scenario: unseen address, key
("realtor", "X1"). -/
def relink_sp1 : ScrapedProperty :=
  ⟨"realtor", "X1", "4 A St", "Provo", "84601", some "UT", none, none,
    none, none, none, none, none, none, none, none, none⟩

/-- Second payload of the C7 scenario: same key, but resolving to the
pre-existing tracked property 7. -/
def relink_sp2 : ScrapedProperty :=
  ⟨"realtor", "X1", "5 B St", "Provo", "84601", some "UT", none, none,
    none, none, none, none, none, none, none, none, none⟩

/-- Tables after the first C7 payload. -/
def relink_mid : Tables :=
  (process_one_property relink_env relink_tables relink_sp1).2.2

/-- Environment after the first C7 payload. -/
def relink_mid_env : Env :=
  (process_one_property relink_env relink_tables relink_sp1).2.1

/-- Tables after the second C7 payload. -/
def relink_final : Tables :=
  (process_one_property relink_mid_env relink_mid relink_sp2).2.2

/-! ## Recent-changes view (claim C9) -/

/-- Failing input for C9: one `UT` property with sixteen reportable status
changes observed one day before `now` (tick 800, i.e. within the current
model year and within any positive day window). -/
def overfull_tables : Tables :=
  ⟨[⟨1, "1 Main St", "Provo", "84601", some "UT", none, some "for_sale",
      some 500000, none, none, none, none, none, none, none, none, 700,
      799⟩],
    List.replicate 16 ⟨1, 799, "status", some "contingent", "for_sale"⟩,
    [], 2⟩

/-! ## Status derivation (claim C2) -/

/-- C2: `derive_canonical_status` returns the first matching label of the
fixed precedence: present sold date gives "Sold"; else pending gives
"Pending"; else contingent gives "Contingent"; else coming-soon gives
"Coming Soon"; else a raw status of `for_sale`, `ready_to_build` or
`for_rent` gives "Active"; every other case — absent raw status included —
gives "Other". -/
theorem derive_canonical_status_precedence
    (sd : Option RTime) (p c cs : Bool) (rs : Option String) :
    (sd.isSome = true → derive_canonical_status sd p c cs rs = "Sold") ∧
    (sd = none → p = true →
      derive_canonical_status sd p c cs rs = "Pending") ∧
    (sd = none → p = false → c = true →
      derive_canonical_status sd p c cs rs = "Contingent") ∧
    (sd = none → p = false → c = false → cs = true →
      derive_canonical_status sd p c cs rs = "Coming Soon") ∧
    (sd = none → p = false → c = false → cs = false →
      (rs = some "for_sale" ∨ rs = some "ready_to_build" ∨
        rs = some "for_rent") →
      derive_canonical_status sd p c cs rs = "Active") ∧
    (sd = none → p = false → c = false → cs = false →
      rs ≠ some "for_sale" → rs ≠ some "ready_to_build" →
      rs ≠ some "for_rent" →
      derive_canonical_status sd p c cs rs = "Other") := by
  refine ⟨?_, ?_, ?_, ?_, ?_, ?_⟩
  · intro h; simp [derive_canonical_status, h]
  · intro h1 h2; subst h1; subst h2; simp [derive_canonical_status]
  · intro h1 h2 h3; subst h1; subst h2; subst h3
    simp [derive_canonical_status]
  · intro h1 h2 h3 h4; subst h1; subst h2; subst h3; subst h4
    simp [derive_canonical_status]
  · intro h1 h2 h3 h4 h5; subst h1; subst h2; subst h3; subst h4
    rcases h5 with h | h | h <;> subst h <;> simp [derive_canonical_status]
  · intro h1 h2 h3 h4 h5 h6 h7; subst h1; subst h2; subst h3; subst h4
    cases rs with
    | none => simp [derive_canonical_status]
    | some s =>
      have hs1 : s ≠ "for_sale" := by simpa using h5
      have hs2 : s ≠ "ready_to_build" := by simpa using h6
      have hs3 : s ≠ "for_rent" := by simpa using h7
      simp [derive_canonical_status, hs1, hs2, hs3]

/-- C2 witness: contingent wins over an active raw status when the
higher-priority flags are off. -/
theorem derive_canonical_status_precedence_witness :
    derive_canonical_status none false true false (some "for_sale") =
      "Contingent" :=
  (derive_canonical_status_precedence none false true false
    (some "for_sale")).2.2.1 rfl rfl rfl

/-- C4: `diff` produces exactly the spec's changes — one per tracked field
whose value differs by structural option equality — concatenated in the
fixed field-name order status, list_price, sold_price, sold_date,
is_pending, is_contingent, is_new_listing, is_foreclosure,
is_price_reduced, is_coming_soon. -/
theorem diff_matches_spec_field_order
    (tr : TrackedProperty) (sp : ScrapedProperty) :
    tr.diff sp = (tracked_field_names.map (spec_changes_for tr sp)).flatten := by
  simp [tracked_field_names, TrackedProperty.diff, spec_changes_for,
    compare_and_log]

@[simp] theorem rshow_false : rshow false = "false" := rfl

@[simp] theorem rshow_true : rshow true = "true" := rfl

@[simp] theorem rshow_string (s : String) : rshow s = s := rfl

/-- Any member of a `compare_and_log` result is the one change built from
that field's old and new values. -/
theorem mem_compare_and_log {α : Type} [DecidableEq α] [RustShow α]
    {pid : Int} {fname : String} {oldv newv : Option α} {c : PropertyChange}
    (h : c ∈ compare_and_log pid fname oldv newv) :
    c = ⟨pid, fname, oldv.map rshow, (newv.map rshow).getD ""⟩ := by
  unfold compare_and_log at h
  split at h
  · simpa using h
  · simp at h

/-- C5: a boolean tracked field going from `Some(false)` to absent is
reported with current value `""` (not `"false"`); and in every change the
previous value is null exactly when the tracked field was absent. -/
theorem diff_absence_vs_false :
    (∀ (tr : TrackedProperty) (sp : ScrapedProperty) (name : String)
      (fT : TrackedProperty → Option Bool)
      (fS : ScrapedProperty → Option Bool),
      (name, fT, fS) ∈ bool_tracked_fields →
      fT tr = some false → fS sp = none →
      (⟨tr.id, name, some "false", ""⟩ : PropertyChange) ∈ tr.diff sp) ∧
    (∀ (tr : TrackedProperty) (sp : ScrapedProperty) (c : PropertyChange),
      c ∈ tr.diff sp →
      (c.previous_value = none ↔
        tracked_field_is_none tr c.field_name = true)) := by
  constructor
  · intro tr sp name fT fS hmem h1 h2
    simp only [bool_tracked_fields, List.mem_cons, List.not_mem_nil,
      or_false, Prod.mk.injEq] at hmem
    show _ ∈ TrackedProperty.diff tr sp
    unfold TrackedProperty.diff
    rcases hmem with ⟨hn, hf, hs⟩ | ⟨hn, hf, hs⟩ | ⟨hn, hf, hs⟩ |
      ⟨hn, hf, hs⟩ | ⟨hn, hf, hs⟩ | ⟨hn, hf, hs⟩ <;>
      subst hn <;> subst hf <;> subst hs <;>
      simp only [] at h1 h2
    · exact List.mem_append_left _ (List.mem_append_left _
        (List.mem_append_left _ (List.mem_append_left _
        (List.mem_append_left _ (List.mem_append_right _
          (by rw [h1, h2]; simp [compare_and_log]))))))
    · exact List.mem_append_left _ (List.mem_append_left _
        (List.mem_append_left _ (List.mem_append_left _
        (List.mem_append_right _ (by rw [h1, h2]; simp [compare_and_log])))))
    · exact List.mem_append_left _ (List.mem_append_left _
        (List.mem_append_left _ (List.mem_append_right _
          (by rw [h1, h2]; simp [compare_and_log]))))
    · exact List.mem_append_left _ (List.mem_append_left _
        (List.mem_append_right _ (by rw [h1, h2]; simp [compare_and_log])))
    · exact List.mem_append_left _ (List.mem_append_right _
        (by rw [h1, h2]; simp [compare_and_log]))
    · exact List.mem_append_right _ (by rw [h1, h2]; simp [compare_and_log])
  · intro tr sp c hc
    simp only [TrackedProperty.diff, List.mem_append] at hc
    rcases hc with ((((((((h | h) | h) | h) | h) | h) | h) | h) | h) | h <;>
      obtain rfl := mem_compare_and_log h <;>
      simp [tracked_field_is_none, Option.map_eq_none',
        Option.isNone_iff_eq_none]

/-- C5 witness: the `Some(false)` to `None` transition of `is_pending` is
reported with current value the empty string. -/
theorem diff_absence_vs_false_witness :
    (⟨1, "is_pending", some "false", ""⟩ : PropertyChange) ∈
      trFalseAbsent.diff spFalseAbsent :=
  diff_absence_vs_false.1 trFalseAbsent spFalseAbsent "is_pending"
    (fun tr => tr.is_pending) (fun sp => sp.is_pending)
    (by simp [bool_tracked_fields]) rfl rfl

theorem req_eq_ok (o : Option String) (msg : String)
    (h : present_nonempty o = true) : req o msg = Except.ok (o.getD "") := by
  cases o with
  | none => simp [present_nonempty] at h
  | some s =>
    simp only [present_nonempty, Bool.not_eq_true'] at h
    simp [req, h]

theorem req_eq_error (o : Option String) (msg : String)
    (h : present_nonempty o = false) : req o msg = Except.error msg := by
  cases o with
  | none => rfl
  | some s =>
    simp only [present_nonempty, Bool.not_eq_false'] at h
    simp [req, h]

/-- C8 counterexample: when the whole address object is absent, every
required field is missing — the first in checking order being the address
line — yet the validation failure names the address object, not the
address line; with the address object present but its line absent, the
failure does name the address line. -/
theorem from_scraper_property_missing_address_object :
    ScrapedProperty.from_scraper_property (fun _ => none)
        ⟨⟨none, none, none⟩, ⟨none, none, none⟩, none, none, none, none,
          none, none, none⟩ =
      Except.error "Missing address object" ∧
    ScrapedProperty.from_scraper_property (fun _ => none)
        ⟨⟨none, none, none⟩, ⟨some ⟨none, none, none, none, none⟩, none,
          none⟩, none, none, none, none, none, none, none⟩ =
      Except.error "Missing or empty address line" ∧
    "Missing address object" ≠ "Missing or empty address line" :=
  ⟨rfl, rfl, by decide⟩

/-- C8 (amended): normalization succeeds exactly when address line, city,
postal code and source listing id are all present and non-empty; otherwise
it fails naming the first missing required field in the checking order
address line, city, postal code, source listing id — except that when the
address object itself is absent the failure names the missing address
object instead of the address line. -/
theorem from_scraper_property_validation (pd : String → Option RTime)
    (p : Scraper.Property) :
    ((∃ sp, ScrapedProperty.from_scraper_property pd p = Except.ok sp) ↔
      (present_nonempty (raw_address_line p) = true ∧
        present_nonempty (raw_city p) = true ∧
        present_nonempty (raw_postal_code p) = true ∧
        present_nonempty p.source.listing_id = true)) ∧
    (p.location.address = none →
      ScrapedProperty.from_scraper_property pd p =
        Except.error "Missing address object") ∧
    (∀ a, p.location.address = some a →
      present_nonempty a.line = false →
      ScrapedProperty.from_scraper_property pd p =
        Except.error "Missing or empty address line") ∧
    (∀ a, p.location.address = some a →
      present_nonempty a.line = true →
      present_nonempty a.city = false →
      ScrapedProperty.from_scraper_property pd p =
        Except.error "Missing or empty city") ∧
    (∀ a, p.location.address = some a →
      present_nonempty a.line = true →
      present_nonempty a.city = true →
      present_nonempty a.postal_code = false →
      ScrapedProperty.from_scraper_property pd p =
        Except.error "Missing or empty postal code") ∧
    (∀ a, p.location.address = some a →
      present_nonempty a.line = true →
      present_nonempty a.city = true →
      present_nonempty a.postal_code = true →
      present_nonempty p.source.listing_id = false →
      ScrapedProperty.from_scraper_property pd p =
        Except.error "Missing or empty source listing id") := by
  cases haddr : p.location.address with
  | none =>
    refine ⟨?_, fun _ => ?_, ?_, ?_, ?_, ?_⟩
    · constructor
      · rintro ⟨sp, hsp⟩
        simp [ScrapedProperty.from_scraper_property, haddr] at hsp
      · rintro ⟨h1, -⟩
        simp [raw_address_line, haddr, present_nonempty] at h1
    · simp [ScrapedProperty.from_scraper_property, haddr]
    · intro a ha; exact absurd ha (by simp)
    · intro a ha; exact absurd ha (by simp)
    · intro a ha; exact absurd ha (by simp)
    · intro a ha; exact absurd ha (by simp)
  | some a =>
    have hline : raw_address_line p = a.line := by
      simp [raw_address_line, haddr]
    have hcity : raw_city p = a.city := by simp [raw_city, haddr]
    have hpc : raw_postal_code p = a.postal_code := by
      simp [raw_postal_code, haddr]
    cases hl : present_nonempty a.line with
    | false =>
      have hres : ScrapedProperty.from_scraper_property pd p =
          Except.error "Missing or empty address line" := by
        simp [ScrapedProperty.from_scraper_property, haddr,
          req_eq_error _ _ hl]
      refine ⟨?_, ?_, ?_, ?_, ?_, ?_⟩
      · simp [hres, hline, hl]
      · intro h; exact absurd h (by simp)
      · intro b hb _; exact hres
      · intro b hb hbl _
        injection hb with hb; subst hb
        rw [hl] at hbl; exact absurd hbl (by simp)
      · intro b hb hbl _ _
        injection hb with hb; subst hb
        rw [hl] at hbl; exact absurd hbl (by simp)
      · intro b hb hbl _ _ _
        injection hb with hb; subst hb
        rw [hl] at hbl; exact absurd hbl (by simp)
    | true =>
      cases hc : present_nonempty a.city with
      | false =>
        have hres : ScrapedProperty.from_scraper_property pd p =
            Except.error "Missing or empty city" := by
          simp [ScrapedProperty.from_scraper_property, haddr,
            req_eq_ok _ _ hl, req_eq_error _ _ hc]
        refine ⟨?_, ?_, ?_, ?_, ?_, ?_⟩
        · simp [hres, hcity, hc]
        · intro h; exact absurd h (by simp)
        · intro b hb hbl
          injection hb with hb; subst hb
          rw [hl] at hbl; exact absurd hbl (by simp)
        · intro b hb _ _; exact hres
        · intro b hb _ hbc _
          injection hb with hb; subst hb
          rw [hc] at hbc; exact absurd hbc (by simp)
        · intro b hb _ hbc _ _
          injection hb with hb; subst hb
          rw [hc] at hbc; exact absurd hbc (by simp)
      | true =>
        cases hp : present_nonempty a.postal_code with
        | false =>
          have hres : ScrapedProperty.from_scraper_property pd p =
              Except.error "Missing or empty postal code" := by
            simp [ScrapedProperty.from_scraper_property, haddr,
              req_eq_ok _ _ hl, req_eq_ok _ _ hc, req_eq_error _ _ hp]
          refine ⟨?_, ?_, ?_, ?_, ?_, ?_⟩
          · simp [hres, hpc, hp]
          · intro h; exact absurd h (by simp)
          · intro b hb hbl
            injection hb with hb; subst hb
            rw [hl] at hbl; exact absurd hbl (by simp)
          · intro b hb _ hbc
            injection hb with hb; subst hb
            rw [hc] at hbc; exact absurd hbc (by simp)
          · intro b hb _ _ _; exact hres
          · intro b hb _ _ hbp _
            injection hb with hb; subst hb
            rw [hp] at hbp; exact absurd hbp (by simp)
        | true =>
          cases hli : present_nonempty p.source.listing_id with
          | false =>
            have hres : ScrapedProperty.from_scraper_property pd p =
                Except.error "Missing or empty source listing id" := by
              simp [ScrapedProperty.from_scraper_property, haddr,
                req_eq_ok _ _ hl, req_eq_ok _ _ hc, req_eq_ok _ _ hp,
                req_eq_error _ _ hli]
            refine ⟨?_, ?_, ?_, ?_, ?_, ?_⟩
            · simp [hres, hli]
            · intro h; exact absurd h (by simp)
            · intro b hb hbl
              injection hb with hb; subst hb
              rw [hl] at hbl; exact absurd hbl (by simp)
            · intro b hb _ hbc
              injection hb with hb; subst hb
              rw [hc] at hbc; exact absurd hbc (by simp)
            · intro b hb _ _ hbp
              injection hb with hb; subst hb
              rw [hp] at hbp; exact absurd hbp (by simp)
            · intro b hb _ _ _ _; exact hres
          | true =>
            have hres : ∃ sp,
                ScrapedProperty.from_scraper_property pd p =
                  Except.ok sp := by
              simp only [ScrapedProperty.from_scraper_property, haddr,
                req_eq_ok _ _ hl, req_eq_ok _ _ hc, req_eq_ok _ _ hp,
                req_eq_ok _ _ hli]
              exact ⟨_, rfl⟩
            refine ⟨?_, ?_, ?_, ?_, ?_, ?_⟩
            · simp [hres, hline, hcity, hpc, hl, hc, hp, hli]
            · intro h; exact absurd h (by simp)
            · intro b hb hbl
              injection hb with hb; subst hb
              rw [hl] at hbl; exact absurd hbl (by simp)
            · intro b hb _ hbc
              injection hb with hb; subst hb
              rw [hc] at hbc; exact absurd hbc (by simp)
            · intro b hb _ _ hbp
              injection hb with hb; subst hb
              rw [hp] at hbp; exact absurd hbp (by simp)
            · intro b hb _ _ _ hbli
              exact absurd hbli (by simp)

/-- C8 witness: a payload whose address line is fine but whose city is
empty fails naming the city — the first missing field in checking
order. -/
theorem from_scraper_property_validation_witness :
    ScrapedProperty.from_scraper_property (fun _ => none)
        ⟨⟨some "realtor", none, some "L9"⟩,
          ⟨some ⟨some "9 Elm St", some "", some "UT", some "84604", none⟩,
            none, none⟩, none, none, none, none, none, none, none⟩ =
      Except.error "Missing or empty city" :=
  ((from_scraper_property_validation (fun _ => none)
      ⟨⟨some "realtor", none, some "L9"⟩,
        ⟨some ⟨some "9 Elm St", some "", some "UT", some "84604", none⟩,
          none, none⟩, none, none, none, none, none, none,
        none⟩).2.2.2.1)
    ⟨some "9 Elm St", some "", some "UT", some "84604", none⟩ rfl rfl rfl

/-- C10: a payload whose required identity fields are present and non-empty
but whose source name is absent still normalizes successfully, with the
source name defaulted to the string `"unknown"`. -/
theorem from_scraper_property_unknown_source_name
    (pd : String → Option RTime) (p : Scraper.Property)
    (h1 : present_nonempty (raw_address_line p) = true)
    (h2 : present_nonempty (raw_city p) = true)
    (h3 : present_nonempty (raw_postal_code p) = true)
    (h4 : present_nonempty p.source.listing_id = true)
    (h5 : p.source.name = none) :
    Except.map (fun sp => sp.source_name)
      (ScrapedProperty.from_scraper_property pd p) = Except.ok "unknown" := by
  cases haddr : p.location.address with
  | none => simp [raw_address_line, haddr, present_nonempty] at h1
  | some a =>
    have hl : present_nonempty a.line = true := by
      simpa [raw_address_line, haddr] using h1
    have hc : present_nonempty a.city = true := by
      simpa [raw_city, haddr] using h2
    have hp : present_nonempty a.postal_code = true := by
      simpa [raw_postal_code, haddr] using h3
    simp [ScrapedProperty.from_scraper_property, haddr, req_eq_ok _ _ hl,
      req_eq_ok _ _ hc, req_eq_ok _ _ hp, req_eq_ok _ _ h4, Except.map, h5]

/-- C10 witness: a concrete payload with all identity fields and no source
name normalizes to source name `"unknown"`. -/
theorem from_scraper_property_unknown_source_name_witness :
    Except.map (fun sp => sp.source_name)
      (ScrapedProperty.from_scraper_property (fun _ => none)
        ⟨⟨none, none, some "L7"⟩,
          ⟨some ⟨some "7 Oak Ave", some "Provo", some "UT", some "84601",
            none⟩, none, none⟩, none, none, none, none, none, none,
          none⟩) = Except.ok "unknown" :=
  from_scraper_property_unknown_source_name (fun _ => none) _ rfl rfl rfl
    rfl rfl

/-! ## Storage-layer lemmas -/

theorem dbstep_nofail {α : Type} {e : Env} (h : e.NoFail) (t : Tables)
    (f : Tables → α × Tables) :
    dbstep e t f =
      (Except.ok (f t).1, { e with opctr := e.opctr + 1 }, (f t).2) := by
  simp [dbstep, h e.opctr]

theorem nofail_set_opctr {e : Env} (h : e.NoFail) (k : Nat) :
    Env.NoFail { e with opctr := k } := fun n => h n

theorem nofail_set_clock {e : Env} (h : e.NoFail) (c : RTime) :
    Env.NoFail { e with clock := c } := fun n => h n

theorem insert_history_rows_nofail :
    ∀ (rows : List HistoryRow) (e : Env) (t : Tables), e.NoFail →
    ∃ k, insert_history_rows e t rows =
      (Except.ok (), { e with opctr := k },
        { t with property_history := t.property_history ++ rows }) := by
  intro rows
  induction rows with
  | nil =>
    intro e t h
    exact ⟨e.opctr, by simp [insert_history_rows]⟩
  | cons row rest ih =>
    intro e t h
    obtain ⟨k, hk⟩ := ih { e with opctr := e.opctr + 1 }
      { t with property_history := t.property_history ++ [row] }
      (fun n => h n)
    refine ⟨k, ?_⟩
    simp only [insert_history_rows, dbstep_nofail h]
    rw [hk]
    simp [List.append_assoc]

/-! ## Transactional rollback (claim C1) -/

/-- C1: if any record of a batch fails with a storage error, the whole
transaction is rolled back — the tables after `save_scraped_properties`
returns its error are exactly the tables before the batch, so no
tracked-property row, history row or source row from any record of the
batch is visible and previously committed state is unchanged. -/
theorem save_scraped_properties_rolls_back (pd : String → Option RTime)
    (e : Env) (t : Tables) (raws : List Scraper.Property) (m : String)
    (h : (save_scraped_properties pd e t raws).1 = Except.error m) :
    (save_scraped_properties pd e t raws).2.2 = t := by
  unfold save_scraped_properties at h ⊢
  revert h
  generalize run_batch e t (raws.filterMap (fun p =>
      (ScrapedProperty.from_scraper_property pd p).toOption)) = x
  rcases x with ⟨msg | u, e2, t2⟩
  · intro _; rfl
  · intro h
    have h2 : (match commit_tx e2 t2 with
        | (Except.ok _, e3, t3) => ((Except.ok () : Except String Unit), e3, t3)
        | (Except.error m2, e3, _) => (Except.error m2, e3, t)).1 =
        Except.error m := h
    show (match commit_tx e2 t2 with
        | (Except.ok _, e3, t3) => ((Except.ok () : Except String Unit), e3, t3)
        | (Except.error m2, e3, _) => (Except.error m2, e3, t)).2.2 = t
    revert h2
    generalize commit_tx e2 t2 = y
    rcases y with ⟨msg2 | u2, e3, t3⟩
    · intro _; rfl
    · intro h2; simp at h2

/-- C1 witness: with a storage failure striking inside record 3 of 5, the
batch returns the storage error and the tables are exactly the pre-batch
tables. -/
theorem save_scraped_properties_rolls_back_witness :
    (save_scraped_properties (fun _ => none) ⟨failing_oracle, 0, 100⟩
        committed_tables failing_batch).1 = Except.error "storage error" ∧
    (save_scraped_properties (fun _ => none) ⟨failing_oracle, 0, 100⟩
        committed_tables failing_batch).2.2 = committed_tables :=
  ⟨rfl,
    save_scraped_properties_rolls_back (fun _ => none)
      ⟨failing_oracle, 0, 100⟩ committed_tables failing_batch
      "storage error" rfl⟩

theorem find_property_by_address_nofail {e : Env} (h : e.NoFail)
    (t : Tables) (sp : ScrapedProperty) :
    find_property_by_address e t sp =
      (Except.ok ((t.properties.find? (addr_matches sp)).map
          PropertyRow.toTracked),
        { e with opctr := e.opctr + 1 }, t) := by
  simp [find_property_by_address, dbstep_nofail h]

theorem update_source_nofail {e : Env} (h : e.NoFail) (t : Tables)
    (sp : ScrapedProperty) (now : RTime) :
    update_source e t sp now =
      (Except.ok (), { e with opctr := e.opctr + 1 },
        { t with
          property_sources := t.property_sources.map (fun r =>
            if source_key_matches sp r then { r with last_seen_at := now }
            else r) }) := by
  simp [update_source, dbstep_nofail h]

theorem insert_property_nofail {e : Env} (h : e.NoFail) (t : Tables)
    (sp : ScrapedProperty) (now : RTime) :
    insert_property e t sp now =
      (Except.ok t.next_id, { e with opctr := e.opctr + 1 },
        { t with
          properties := t.properties ++ [new_property_row t.next_id sp now]
          next_id := t.next_id + 1 }) := by
  simp [insert_property, dbstep_nofail h]

theorem insert_or_update_source_nofail {e : Env} (h : e.NoFail)
    (t : Tables) (pid : Int) (sp : ScrapedProperty) (now : RTime) :
    insert_or_update_source e t pid sp now =
      (Except.ok (), { e with opctr := e.opctr + 1 },
        { t with
          property_sources :=
            if t.property_sources.any (source_key_matches sp) then
              t.property_sources.map (fun r =>
                if source_key_matches sp r then
                  { r with property_id := pid, last_seen_at := now }
                else r)
            else
              t.property_sources ++
                [⟨pid, sp.source_name, sp.source_listing_id, now, now⟩] }) := by
  simp [insert_or_update_source, dbstep_nofail h]

/-! ## Idempotent re-processing (claim C3) -/

/-- C3: when an identical record is re-processed against its matching
tracked property, the diff is empty, processing succeeds, and neither the
`properties` row nor the history log changes (only the source link's
last-seen is refreshed). -/
theorem reprocess_identical_is_idempotent
    (e : Env) (t : Tables) (sp : ScrapedProperty) (tracked : TrackedProperty)
    (hnf : e.NoFail)
    (hfind : (t.properties.find? (addr_matches sp)).map
      PropertyRow.toTracked = some tracked)
    (hid : tracked.status = sp.status ∧ tracked.list_price = sp.list_price ∧
      tracked.sold_price = sp.sold_price ∧
      tracked.sold_date = sp.sold_date ∧
      tracked.is_pending = sp.is_pending ∧
      tracked.is_contingent = sp.is_contingent ∧
      tracked.is_new_listing = sp.is_new_listing ∧
      tracked.is_foreclosure = sp.is_foreclosure ∧
      tracked.is_price_reduced = sp.is_price_reduced ∧
      tracked.is_coming_soon = sp.is_coming_soon) :
    tracked.diff sp = [] ∧
    (process_one_property e t sp).1 = Except.ok () ∧
    (process_one_property e t sp).2.2.property_history =
      t.property_history ∧
    (process_one_property e t sp).2.2.properties = t.properties := by
  obtain ⟨h1, h2, h3, h4, h5, h6, h7, h8, h9, h10⟩ := hid
  have hdiff : tracked.diff sp = [] := by
    simp [TrackedProperty.diff, compare_and_log, h1, h2, h3, h4, h5, h6,
      h7, h8, h9, h10]
  have e1nf : Env.NoFail { e with clock := e.clock + 1 } := fun n => hnf n
  have hrun : process_one_property e t sp =
      update_source { e with opctr := e.opctr + 1, clock := e.clock + 1 }
        t sp e.clock := by
    simp only [process_one_property, utc_now]
    rw [find_property_by_address_nofail e1nf, hfind]
    simp [hdiff]
  have e2nf : Env.NoFail { e with opctr := e.opctr + 1, clock := e.clock + 1 } :=
    fun n => hnf n
  rw [hrun, update_source_nofail e2nf]
  exact ⟨hdiff, rfl, rfl, rfl⟩

/-- C3 witness: re-processing the identical record yields an empty diff,
succeeds, and leaves `properties` and `property_history` unchanged. -/
theorem reprocess_identical_is_idempotent_witness :
    idem_tracked.diff idem_scraped = [] ∧
    (process_one_property idem_env idem_tables idem_scraped).1 =
      Except.ok () ∧
    (process_one_property idem_env idem_tables
      idem_scraped).2.2.property_history = idem_tables.property_history ∧
    (process_one_property idem_env idem_tables idem_scraped).2.2.properties =
      idem_tables.properties :=
  reprocess_identical_is_idempotent idem_env idem_tables idem_scraped
    idem_tracked (fun _ => rfl) rfl
    ⟨rfl, rfl, rfl, rfl, rfl, rfl, rfl, rfl, rfl, rfl⟩

theorem opt_initial_entry_length {α : Type} [RustShow α] (pid : Int)
    (now : RTime) (fname : String) (o : Option α) :
    (opt_initial_entry pid now fname o).length =
      if o.isSome then 1 else 0 := by
  cases o <;> rfl

theorem initial_history_entries_length (pid : Int) (now : RTime)
    (sp : ScrapedProperty) :
    (initial_history_entries pid now sp).length =
      present_tracked_count sp := by
  simp only [initial_history_entries, present_tracked_count,
    opt_initial_entry_length, List.length_append]

theorem mem_opt_initial_entry {α : Type} [RustShow α] {pid : Int}
    {now : RTime} {fname : String} {o : Option α} {r : HistoryRow}
    (h : r ∈ opt_initial_entry pid now fname o) :
    ∃ v, o = some v ∧ r = ⟨pid, now, fname, none, rshow v⟩ := by
  cases o with
  | none => simp [opt_initial_entry] at h
  | some v => exact ⟨v, rfl, by simpa [opt_initial_entry] using h⟩

theorem mem_initial_history_entries {pid : Int} {now : RTime}
    {sp : ScrapedProperty} {r : HistoryRow}
    (h : r ∈ initial_history_entries pid now sp) :
    r.previous_value = none ∧ r.property_id = pid := by
  simp only [initial_history_entries, List.mem_append] at h
  rcases h with
    ((((((((h | h) | h) | h) | h) | h) | h) | h) | h) | h <;>
    obtain ⟨v, hv, rfl⟩ := mem_opt_initial_entry h <;> exact ⟨rfl, rfl⟩

/-- C6: processing a never-seen record (no tracked property matches its
address triple) succeeds, appends exactly one fresh `properties` row, and
appends one history entry per present tracked field — `present_tracked_count`
many — each with null previous value and owned by the fresh row. -/
theorem new_property_seeding
    (e : Env) (t : Tables) (sp : ScrapedProperty)
    (hnf : e.NoFail)
    (hfind : t.properties.find? (addr_matches sp) = none) :
    (process_one_property e t sp).1 = Except.ok () ∧
    (process_one_property e t sp).2.2.properties =
      t.properties ++ [new_property_row t.next_id sp e.clock] ∧
    (process_one_property e t sp).2.2.property_history =
      t.property_history ++ initial_history_entries t.next_id e.clock sp ∧
    (initial_history_entries t.next_id e.clock sp).length =
      present_tracked_count sp ∧
    (∀ r ∈ initial_history_entries t.next_id e.clock sp,
      r.previous_value = none ∧ r.property_id = t.next_id) := by
  have e1nf : Env.NoFail { e with clock := e.clock + 1 } := fun n => hnf n
  have e2nf : Env.NoFail
      { e with opctr := e.opctr + 1, clock := e.clock + 1 } :=
    fun n => hnf n
  obtain ⟨k, hk⟩ := insert_history_rows_nofail
    (initial_history_entries t.next_id e.clock sp)
    { e with opctr := e.opctr + 1 + 1, clock := e.clock + 1 }
    { t with
      properties := t.properties ++ [new_property_row t.next_id sp e.clock]
      next_id := t.next_id + 1 }
    (fun n => hnf n)
  have eknf : Env.NoFail { e with opctr := k, clock := e.clock + 1 } :=
    fun n => hnf n
  have hrun : process_one_property e t sp =
      insert_or_update_source { e with opctr := k, clock := e.clock + 1 }
        { t with
          properties :=
            t.properties ++ [new_property_row t.next_id sp e.clock]
          property_history := t.property_history ++
            initial_history_entries t.next_id e.clock sp
          next_id := t.next_id + 1 }
        t.next_id sp e.clock := by
    simp only [process_one_property, utc_now]
    rw [find_property_by_address_nofail e1nf, hfind]
    simp only [Option.map_none']
    simp [insert_property_nofail e2nf, log_initial_state, hk]
  rw [hrun, insert_or_update_source_nofail eknf]
  exact ⟨rfl, rfl, rfl, initial_history_entries_length t.next_id e.clock sp,
    fun r hr => mem_initial_history_entries hr⟩

/-- C6 witness: the never-seen record with 4 present tracked fields yields
exactly 4 seeded history entries, all with null previous value. -/
theorem new_property_seeding_witness :
    ((process_one_property seed_env seed_tables seed_scraped).1 =
        Except.ok () ∧
      (process_one_property seed_env seed_tables
          seed_scraped).2.2.properties =
        seed_tables.properties ++
          [new_property_row seed_tables.next_id seed_scraped
            seed_env.clock] ∧
      (process_one_property seed_env seed_tables
          seed_scraped).2.2.property_history =
        seed_tables.property_history ++
          initial_history_entries seed_tables.next_id seed_env.clock
            seed_scraped ∧
      (initial_history_entries seed_tables.next_id seed_env.clock
          seed_scraped).length = present_tracked_count seed_scraped ∧
      (∀ r ∈ initial_history_entries seed_tables.next_id seed_env.clock
          seed_scraped,
        r.previous_value = none ∧
          r.property_id = seed_tables.next_id)) ∧
    present_tracked_count seed_scraped = 4 :=
  ⟨new_property_seeding seed_env seed_tables seed_scraped (fun _ => rfl)
    rfl, rfl⟩

/-! ## Source upsert behaviour (claim C7) -/

theorem update_property_nofail {e : Env} (h : e.NoFail) (t : Tables)
    (pid : Int) (sp : ScrapedProperty) (now : RTime) :
    update_property e t pid sp now =
      (Except.ok (), { e with opctr := e.opctr + 1 },
        { t with
          properties := t.properties.map (fun r =>
            if r.id == pid then
              { r with
                status := sp.status, list_price := sp.list_price,
                sold_price := sp.sold_price, sold_date := sp.sold_date,
                is_pending := sp.is_pending,
                is_contingent := sp.is_contingent,
                is_new_listing := sp.is_new_listing,
                is_foreclosure := sp.is_foreclosure,
                is_price_reduced := sp.is_price_reduced,
                is_coming_soon := sp.is_coming_soon, last_seen_at := now }
            else r) }) := by
  simp [update_property, dbstep_nofail h]

/-- Full characterization of a NEW-path `process_one_property` run under a
non-failing oracle. -/
theorem process_new_full (e : Env) (t : Tables) (sp : ScrapedProperty)
    (hnf : e.NoFail)
    (hfind : t.properties.find? (addr_matches sp) = none) :
    ∃ k, process_one_property e t sp =
      (Except.ok (), { e with opctr := k, clock := e.clock + 1 },
        ⟨t.properties ++ [new_property_row t.next_id sp e.clock],
          t.property_history ++ initial_history_entries t.next_id e.clock sp,
          (if t.property_sources.any (source_key_matches sp) then
            t.property_sources.map (fun r =>
              if source_key_matches sp r then
                { r with property_id := t.next_id, last_seen_at := e.clock }
              else r)
          else
            t.property_sources ++
              [⟨t.next_id, sp.source_name, sp.source_listing_id, e.clock,
                e.clock⟩]),
          t.next_id + 1⟩) := by
  have e1nf : Env.NoFail { e with clock := e.clock + 1 } := fun n => hnf n
  have e2nf : Env.NoFail
      { e with opctr := e.opctr + 1, clock := e.clock + 1 } :=
    fun n => hnf n
  obtain ⟨k, hk⟩ := insert_history_rows_nofail
    (initial_history_entries t.next_id e.clock sp)
    { e with opctr := e.opctr + 1 + 1, clock := e.clock + 1 }
    { t with
      properties := t.properties ++ [new_property_row t.next_id sp e.clock]
      next_id := t.next_id + 1 }
    (fun n => hnf n)
  have eknf : Env.NoFail { e with opctr := k, clock := e.clock + 1 } :=
    fun n => hnf n
  refine ⟨k + 1, ?_⟩
  have hrun : process_one_property e t sp =
      insert_or_update_source { e with opctr := k, clock := e.clock + 1 }
        { t with
          properties :=
            t.properties ++ [new_property_row t.next_id sp e.clock]
          property_history := t.property_history ++
            initial_history_entries t.next_id e.clock sp
          next_id := t.next_id + 1 }
        t.next_id sp e.clock := by
    simp only [process_one_property, utc_now]
    rw [find_property_by_address_nofail e1nf, hfind]
    simp only [Option.map_none']
    simp [insert_property_nofail e2nf, log_initial_state, hk]
  rw [hrun, insert_or_update_source_nofail eknf]

/-- Full characterization of the source-table effect of an EXISTING-path
`process_one_property` run under a non-failing oracle: whatever the diff
does to the other tables, the source row for the record's key gets its
`last_seen_at` refreshed and keeps its `property_id`. -/
theorem process_existing_sources (e : Env) (t : Tables)
    (sp : ScrapedProperty) (r0 : PropertyRow)
    (hnf : e.NoFail)
    (hfind : t.properties.find? (addr_matches sp) = some r0) :
    ∃ (k : Nat) (c : RTime) (props : List PropertyRow)
      (hist : List HistoryRow),
      process_one_property e t sp =
        (Except.ok (), { e with opctr := k, clock := c },
          ⟨props, hist,
            t.property_sources.map (fun r =>
              if source_key_matches sp r then
                { r with last_seen_at := e.clock }
              else r),
            t.next_id⟩) := by
  have e1nf : Env.NoFail { e with clock := e.clock + 1 } := fun n => hnf n
  cases hch : (r0.toTracked.diff sp).isEmpty with
  | true =>
    refine ⟨e.opctr + 1 + 1, e.clock + 1, t.properties, t.property_history,
      ?_⟩
    have e2nf : Env.NoFail
        { e with opctr := e.opctr + 1, clock := e.clock + 1 } :=
      fun n => hnf n
    have hrun : process_one_property e t sp =
        update_source { e with opctr := e.opctr + 1, clock := e.clock + 1 }
          t sp e.clock := by
      simp only [process_one_property, utc_now]
      rw [find_property_by_address_nofail e1nf, hfind]
      simp [hch]
    rw [hrun, update_source_nofail e2nf]
  | false =>
    obtain ⟨k, hk⟩ := insert_history_rows_nofail
      ((r0.toTracked.diff sp).map (fun c =>
        ⟨c.property_id, e.clock + 1, c.field_name, c.previous_value,
          c.current_value⟩))
      { e with opctr := e.opctr + 1, clock := e.clock + 1 + 1 }
      t (fun n => hnf n)
    have eknf : Env.NoFail
        { e with opctr := k, clock := e.clock + 1 + 1 } := fun n => hnf n
    have ek1nf : Env.NoFail
        { e with opctr := k + 1, clock := e.clock + 1 + 1 } :=
      fun n => hnf n
    refine ⟨k + 1 + 1, e.clock + 1 + 1,
      t.properties.map (fun r =>
        if r.id == r0.toTracked.id then
          { r with
            status := sp.status, list_price := sp.list_price,
            sold_price := sp.sold_price, sold_date := sp.sold_date,
            is_pending := sp.is_pending, is_contingent := sp.is_contingent,
            is_new_listing := sp.is_new_listing,
            is_foreclosure := sp.is_foreclosure,
            is_price_reduced := sp.is_price_reduced,
            is_coming_soon := sp.is_coming_soon,
            last_seen_at := e.clock }
        else r),
      t.property_history ++
        (r0.toTracked.diff sp).map (fun c =>
          ⟨c.property_id, e.clock + 1, c.field_name, c.previous_value,
            c.current_value⟩), ?_⟩
    have hrun : process_one_property e t sp =
        update_source { e with opctr := k + 1, clock := e.clock + 1 + 1 }
          { t with
            properties := t.properties.map (fun r =>
              if r.id == r0.toTracked.id then
                { r with
                  status := sp.status, list_price := sp.list_price,
                  sold_price := sp.sold_price, sold_date := sp.sold_date,
                  is_pending := sp.is_pending,
                  is_contingent := sp.is_contingent,
                  is_new_listing := sp.is_new_listing,
                  is_foreclosure := sp.is_foreclosure,
                  is_price_reduced := sp.is_price_reduced,
                  is_coming_soon := sp.is_coming_soon,
                  last_seen_at := e.clock }
              else r)
            property_history := t.property_history ++
              (r0.toTracked.diff sp).map (fun c =>
                ⟨c.property_id, e.clock + 1, c.field_name,
                  c.previous_value, c.current_value⟩) }
          sp e.clock := by
      simp only [process_one_property, utc_now]
      rw [find_property_by_address_nofail e1nf, hfind]
      simp only [Option.map_some']
      simp [hch, log_changes, utc_now, hk,
        update_property_nofail eknf]
    rw [hrun, update_source_nofail ek1nf]

theorem filter_key_update {α : Type} (p : α → Bool) (g : α → α)
    (hg : ∀ r, p (g r) = p r) :
    ∀ (l : List α) (a : α), l.any p = false → p a = true →
    ((l ++ [a]).map (fun r => if p r then g r else r)).filter p = [g a] := by
  intro l a
  induction l with
  | nil =>
    intro _ ha
    simp [ha, hg a]
  | cons b l ih =>
    intro hl ha
    simp only [List.any_cons, Bool.or_eq_false_iff] at hl
    have hb : (if p b = true then g b else b) = b := by simp [hl.1]
    rw [List.cons_append, List.map_cons, hb, List.filter_cons,
      if_neg (by simp [hl.1])]
    exact ih hl.2 ha

theorem source_key_matches_congr {sp1 sp2 : ScrapedProperty}
    (h1 : sp2.source_name = sp1.source_name)
    (h2 : sp2.source_listing_id = sp1.source_listing_id) :
    source_key_matches sp2 = source_key_matches sp1 :=
  funext (fun r => by simp [source_key_matches, h1, h2])

/-- C7 counterexample: the two payloads share key ("realtor", "X1") and
resolve to different tracked properties (the fresh id 8, then the
pre-existing id 7); afterwards exactly one source row exists for the key,
but its `property_id` is 8 — the first match — not 7, the tracked property
matched by the later payload, because the EXISTING path only refreshes
`last_seen_at`. -/
theorem source_upsert_relink_counterexample :
    relink_final.property_sources.map (fun r => r.property_id) = [8] ∧
    relink_final.property_sources.length = 1 ∧
    (relink_mid.properties.find? (addr_matches relink_sp2)).map
      (fun r => r.id) = some 7 ∧
    (8 : Int) ≠ 7 :=
  ⟨rfl, rfl, rfl, by decide⟩

/-- C7 (amended): for two successively processed payloads sharing one
(source name, source listing id) key — starting from tables with no source
row for that key and with the first payload creating a new tracked
property — exactly one source row for the key exists afterwards, its
`first_seen_at` is the first payload's timestamp and its `last_seen_at`
the later payload's timestamp; its `property_id` is re-pointed to the
later payload's tracked property only when the later payload takes the
NEW path (no address match), while a later payload matching an existing
tracked property leaves the `property_id` of the first payload in place
and only refreshes `last_seen_at`. -/
theorem source_upsert_last_writer
    (e : Env) (t : Tables) (sp1 sp2 : ScrapedProperty)
    (hnf : e.NoFail)
    (hkey1 : sp2.source_name = sp1.source_name)
    (hkey2 : sp2.source_listing_id = sp1.source_listing_id)
    (hnosrc : t.property_sources.any (source_key_matches sp1) = false)
    (hnew1 : t.properties.find? (addr_matches sp1) = none) :
    (process_one_property (process_one_property e t sp1).2.1
        (process_one_property e t sp1).2.2 sp2).2.2.property_sources.filter
      (source_key_matches sp1) =
      [⟨(if ((process_one_property e t sp1).2.2.properties.find?
            (addr_matches sp2)).isSome then t.next_id else t.next_id + 1),
        sp1.source_name, sp1.source_listing_id, e.clock, e.clock + 1⟩] ∧
    e.clock < e.clock + 1 := by
  refine ⟨?_, lt_add_one e.clock⟩
  obtain ⟨k1, h1⟩ := process_new_full e t sp1 hnf hnew1
  simp only [h1, hnosrc, Bool.false_eq_true, if_false]
  rcases hfind2 : (t.properties ++
      [new_property_row t.next_id sp1 e.clock]).find? (addr_matches sp2)
    with _ | r2
  · obtain ⟨k2, h2⟩ := process_new_full
      { e with opctr := k1, clock := e.clock + 1 }
      ⟨t.properties ++ [new_property_row t.next_id sp1 e.clock],
        t.property_history ++
          initial_history_entries t.next_id e.clock sp1,
        t.property_sources ++
          [⟨t.next_id, sp1.source_name, sp1.source_listing_id, e.clock,
            e.clock⟩],
        t.next_id + 1⟩
      sp2 (fun n => hnf n) hfind2
    simp only [h2]
    rw [source_key_matches_congr hkey1 hkey2]
    have hany : (t.property_sources ++
        [(⟨t.next_id, sp1.source_name, sp1.source_listing_id, e.clock,
          e.clock⟩ : SourceRow)]).any (source_key_matches sp1) = true := by
      simp [List.any_append, source_key_matches]
    rw [hany]
    simp only [if_true, Option.isSome_none, Bool.false_eq_true, if_false]
    rw [filter_key_update (source_key_matches sp1)
      (fun r => { r with
        property_id := t.next_id + 1
        last_seen_at := e.clock + 1 })
      (fun r => by simp [source_key_matches])
      t.property_sources _ hnosrc (by simp [source_key_matches])]
  · obtain ⟨k2, c2, props2, hist2, h2⟩ := process_existing_sources
      { e with opctr := k1, clock := e.clock + 1 }
      ⟨t.properties ++ [new_property_row t.next_id sp1 e.clock],
        t.property_history ++
          initial_history_entries t.next_id e.clock sp1,
        t.property_sources ++
          [⟨t.next_id, sp1.source_name, sp1.source_listing_id, e.clock,
            e.clock⟩],
        t.next_id + 1⟩
      sp2 r2 (fun n => hnf n) hfind2
    simp only [h2]
    rw [source_key_matches_congr hkey1 hkey2]
    simp only [Option.isSome_some, if_true]
    rw [filter_key_update (source_key_matches sp1)
      (fun r => { r with last_seen_at := e.clock + 1 })
      (fun r => by simp [source_key_matches])
      t.property_sources _ hnosrc (by simp [source_key_matches])]

/-- C7 witness: in the concrete counterexample scenario the amended
statement holds — the key's single source row keeps property id 8 (the
first payload's fresh property) and carries first seen 100, last
seen 101. -/
theorem source_upsert_last_writer_witness :
    relink_final.property_sources.filter (source_key_matches relink_sp1) =
      [⟨(if (relink_mid.properties.find?
            (addr_matches relink_sp2)).isSome then relink_tables.next_id
          else relink_tables.next_id + 1),
        relink_sp1.source_name, relink_sp1.source_listing_id,
        relink_env.clock, relink_env.clock + 1⟩] ∧
    relink_env.clock < relink_env.clock + 1 :=
  source_upsert_last_writer relink_env relink_tables relink_sp1 relink_sp2
    (fun _ => rfl) rfl rfl rfl rfl

/-- C9 evaluation: `get_recent_changes` for a 7-day window returns all 16
qualifying rows — the function filters by day window but never applies the
15-row cap that both the spec and the function's own comment ("take the
most recent 15 for the preview") promise. -/
theorem get_recent_changes_missing_cap :
    (get_recent_changes overfull_tables 800 7).length = 16 := by rfl
